import Mathlib

/-!
Verification of the webOS dynaload node module (src/node_webos.cpp) against
its natural-language specification. The C++/V8 code is shallowly embedded:
a global object is an association list of named bindings, an execution
engine environment maps file paths to script behaviours, and each native
function of the module is translated into an executable Lean function that
additionally records a trace of the externally visible steps it performs
(file reads, compilations, identity-global writes and clears, script runs).
-/

namespace WebosDynaload

/-- Engine values as far as this module distinguishes them: the undefined
value, numbers, strings, references to the three distinguished objects a
composition creates or receives (the new context's global object, the host
context's global object, the fresh exports namespace), opaque host values,
and error objects carrying a message. -/
inductive Value where
  | undefined : Value
  | num : Int → Value
  | str : String → Value
  | newGlobalRef : Value
  | hostGlobalRef : Value
  | exportsRef : Value
  | ext : Nat → Value
  | err : String → Value
deriving DecidableEq

/-- Whether a value is a string, mirroring the V8 IsString check. -/
def Value.isString : Value → Bool
  | .str _ => true
  | _ => false

/-- Model of the engine's ToString coercion used by v8 String Utf8Value. -/
def Value.toStr : Value → String
  | .undefined => "undefined"
  | .num n => toString n
  | .str s => s
  | .err m => m
  | _ => "[object Object]"

/-- A global object: the binding table of an execution context, mutated in
place by the native code and by executed scripts. -/
abbrev GlobalObj := List (String × Value)

/-- Write a binding, overwriting an existing one of the same name
(v8 Object Set). -/
def setB : GlobalObj → String → Value → GlobalObj
  | [], k, v => [(k, v)]
  | (k2, v2) :: rest, k, v =>
      if k2 = k then (k, v) :: rest else (k2, v2) :: setB rest k v

/-- Look a binding up; none when the name is absent. -/
def getB : GlobalObj → String → Option Value
  | [], _ => none
  | (k2, v2) :: rest, k => if k2 = k then some v2 else getB rest k

/-- Look a binding up, yielding the undefined value when absent
(v8 Object Get). -/
def getD (g : GlobalObj) (k : String) : Value :=
  (getB g k).getD .undefined

/-- Model of boost filesystem system_complete: resolve a path against the
current working directory into an absolute path. -/
def systemComplete (cwd p : String) : String :=
  if p.startsWith "/" then p else cwd ++ "/" ++ p

/-- Model of boost filesystem parent_path: the containing directory. -/
def parentPath (p : String) : String :=
  let q := String.intercalate "/" (p.splitOn "/").dropLast
  if q = "" ∧ p.startsWith "/" then "/" else q

/-- Name of the current-file identity global. -/
def kFileNameGlobal : String := "__filename"

/-- Name of the current-directory identity global. -/
def kDirNameGlobal : String := "__dirname"

/-- SetFileAndDirectoryGlobals from node_webos.cpp: resolve the path and
write both identity globals onto the given global object. -/
def SetFileAndDirectoryGlobals (cwd : String) (g : GlobalObj) (path : String) : GlobalObj :=
  let pathToFile := systemComplete cwd path
  let pathToParentDir := parentPath pathToFile
  setB (setB g kFileNameGlobal (.str pathToFile)) kDirNameGlobal (.str pathToParentDir)

/-- ClearFileAndDirectoryGlobals from node_webos.cpp: overwrite both
identity globals with the undefined value (the absent marker). -/
def ClearFileAndDirectoryGlobals (g : GlobalObj) : GlobalObj :=
  setB (setB g kFileNameGlobal .undefined) kDirNameGlobal .undefined

/-- The behaviour, as far as this module observes it, of the script stored
at one path: whether the engine compiles it, and what running the compiled
unit does to the current global object — finishing with a completion value
or throwing a runtime exception value. -/
structure ScriptFile where
  compiles : Bool
  run : GlobalObj → GlobalObj × Except Value Value

/-- The filesystem-plus-engine environment: which paths are readable and
what the script found there does. An unreadable path maps to none.
Modelled from the spec for the read step: createV8StringFromFile lives in
external_string.cpp, which is not part of this repository snapshot; the
spec states that a read failure surfaces as a raised error with
failed = true. -/
abbrev Env := String → Option ScriptFile

/-- Externally visible steps of the native functions, in order. -/
inductive Ev where
  | read : String → Ev
  | compileStep : String → Ev
  | setIdent : String → Ev
  | runScript : String → Ev
  | clearIdent : Ev
deriving DecidableEq

/-- Error message raised by IncludeScript on a missing or empty path. -/
def includeArgErrMsg : String := "webOS 'include' requires a non-empty filename argument."

/-- Error message raised by IncludeScriptWrapper on wrong argument count. -/
def arityErrMsg : String := "Invalid number of parameters, 1 expected."

/-- Error message raised by Require on a non-string file list element. -/
def nonStringErrMsg : String := "All elements of file paths array must be strings."

/-- The raised error modelling a failed file read (spec: an I/O error
surfaced verbatim). -/
def ioErr (p : String) : Value := .err ("IOError: cannot read file: " ++ p)

/-- Result of one IncludeScript call: the global object afterwards, the
returned value (none models the empty handle of a propagating exception),
the exceptionOccurred flag, the raised error value if any, and the trace. -/
structure IncResult where
  g : GlobalObj
  ret : Option Value
  failed : Bool
  thrown : Option Value
  events : List Ev
deriving DecidableEq

/-- Trace of a fully executed include: read, compile, identity set, run,
identity clear. -/
def runEvents (p : String) : List Ev :=
  [.read p, .compileStep p, .setIdent p, .runScript p, .clearIdent]

/-- IncludeScript from node_webos.cpp: validate the path, read the file,
compile it, set the identity globals, run it, clear the identity globals,
and report the outcome through the exceptionOccurred flag. -/
def IncludeScript (env : Env) (cwd path : String) (g : GlobalObj) : IncResult :=
  if path = "" then
    { g := g, ret := none, failed := true,
      thrown := some (.err includeArgErrMsg), events := [] }
  else
    match env path with
    | none =>
        { g := g, ret := none, failed := true,
          thrown := some (ioErr path), events := [.read path] }
    | some file =>
        if file.compiles then
          let res := file.run (SetFileAndDirectoryGlobals cwd g path)
          match res.2 with
          | .error e =>
              { g := ClearFileAndDirectoryGlobals res.1, ret := none, failed := true,
                thrown := some e, events := runEvents path }
          | .ok v =>
              { g := ClearFileAndDirectoryGlobals res.1, ret := some v, failed := false,
                thrown := none, events := runEvents path }
        else
          { g := g, ret := some .undefined, failed := true,
            thrown := none, events := [.read path, .compileStep path] }

/-- IncludeScriptWrapper from node_webos.cpp: check the argument count,
coerce the single argument to a string, and delegate to IncludeScript. -/
def IncludeScriptWrapper (env : Env) (cwd : String) (arguments : List Value)
    (g : GlobalObj) : IncResult :=
  if arguments.length ≠ 1 then
    { g := g, ret := none, failed := true,
      thrown := some (.err arityErrMsg), events := [] }
  else
    IncludeScript env cwd (Value.toStr (arguments.headD .undefined)) g

/-- CopyProperty from node_webos.cpp: copy one named binding from the
source global object to the destination (undefined when absent). -/
def CopyProperty (src dst : GlobalObj) (propertyName : String) : GlobalObj :=
  setB dst propertyName (getD src propertyName)

/-- The seeding phase of Require: starting from the new context's empty
global object, bind exports, the self reference, the two host references,
the loader handle, the native require, and copy the five enumerated host
bindings. -/
def seedGlobal (nativeRequire loader : Value) (currentGlobal : GlobalObj) : GlobalObj :=
  let g := setB [] "exports" .exportsRef
  let g := setB g "global" .newGlobalRef
  let g := setB g "globals" .hostGlobalRef
  let g := setB g "root" .hostGlobalRef
  let g := setB g "MojoLoader" loader
  let g := setB g "require" nativeRequire
  let g := CopyProperty currentGlobal g "console"
  let g := CopyProperty currentGlobal g "setTimeout"
  let g := CopyProperty currentGlobal g "clearTimeout"
  let g := CopyProperty currentGlobal g "setInterval"
  CopyProperty currentGlobal g "clearInterval"

/-- How Require's file-loading loop terminated. -/
inductive LoopExit where
  | completed : LoopExit
  | loadFailed : LoopExit
  | nonString : LoopExit
deriving DecidableEq

/-- Result of Require's file-loading loop. -/
structure LoopResult where
  g : GlobalObj
  exit : LoopExit
  thrown : Option Value
  events : List Ev
deriving DecidableEq

/-- The file-loading loop of Require: for each element, reject a
non-string immediately, otherwise set the identity globals and include the
file, stopping at the first load whose exceptionOccurred flag is true. -/
def loopFiles (env : Env) (cwd : String) : List Value → GlobalObj → LoopResult
  | [], g => { g := g, exit := .completed, thrown := none, events := [] }
  | fileNameObject :: rest, g =>
      match fileNameObject with
      | .str fileName =>
          let r := IncludeScript env cwd fileName (SetFileAndDirectoryGlobals cwd g fileName)
          if r.failed then
            { g := r.g, exit := .loadFailed, thrown := r.thrown,
              events := .setIdent fileName :: r.events }
          else
            let r2 := loopFiles env cwd rest r.g
            { g := r2.g, exit := r2.exit, thrown := r2.thrown,
              events := .setIdent fileName :: (r.events ++ r2.events) }
      | _ =>
          { g := g, exit := .nonString, thrown := some (.err nonStringErrMsg),
            events := [] }

/-- Result of one Require call: the returned value (some global object, or
none when the call returned a raised error instead), the final state of
the new context's global object, the pending raised error if any, and the
trace. -/
structure ReqResult where
  ret : Option GlobalObj
  g : GlobalObj
  thrown : Option Value
  events : List Ev
deriving DecidableEq

/-- Require from node_webos.cpp: create a new context, seed its global
object, loop over the file list, and — except on the non-string early
return, which skips it — clear the identity globals once before returning
the new global object. -/
def Require (env : Env) (cwd : String) (nativeRequire loader : Value)
    (currentGlobal : GlobalObj) (filePaths : List Value) : ReqResult :=
  let lr := loopFiles env cwd filePaths (seedGlobal nativeRequire loader currentGlobal)
  match lr.exit with
  | .nonString =>
      { ret := none, g := lr.g, thrown := lr.thrown, events := lr.events }
  | _ =>
      let gf := ClearFileAndDirectoryGlobals lr.g
      { ret := some gf, g := gf, thrown := lr.thrown, events := lr.events ++ [.clearIdent] }

/-- A script that compiles and runs successfully, completing with 7. -/
def fileA : ScriptFile where
  compiles := true
  run := fun g => (setB g "a" (.num 1), .ok (.num 7))

/-- A script that compiles and throws a runtime exception. -/
def fileThrows : ScriptFile where
  compiles := true
  run := fun g => (g, .error (.err "boom"))

/-- A script the engine fails to compile (syntax error). -/
def fileBadSyntax : ScriptFile where
  compiles := false
  run := fun g => (g, .ok .undefined)

/-- A concrete environment: one good file, one throwing file, one file
with a syntax error; every other path is unreadable. -/
def envA : Env := fun p =>
  if p = "/a.js" then some fileA
  else if p = "/t.js" then some fileThrows
  else if p = "/s.js" then some fileBadSyntax
  else none

/-- A concrete host global object carrying the five copied bindings. -/
def host0 : GlobalObj :=
  [("console", .ext 0), ("setTimeout", .ext 1), ("clearTimeout", .ext 2),
   ("setInterval", .ext 3), ("clearInterval", .ext 4)]

theorem getB_setB_same (g : GlobalObj) (k : String) (v : Value) :
    getB (setB g k v) k = some v := by
  induction g with
  | nil => simp [setB, getB]
  | cons hd tl ih =>
      by_cases h : hd.1 = k
      · simp [setB, getB, h]
      · simp [setB, getB, h, ih]

theorem getB_setB_ne (g : GlobalObj) (k k2 : String) (v : Value) (h : k2 ≠ k) :
    getB (setB g k v) k2 = getB g k2 := by
  induction g with
  | nil => simp [setB, getB, Ne.symm h]
  | cons hd tl ih =>
      by_cases h2 : hd.1 = k
      · simp [setB, getB, h2, Ne.symm h, h]
      · simp [setB, getB, h2, ih]

theorem getB_clear_file (g : GlobalObj) :
    getB (ClearFileAndDirectoryGlobals g) kFileNameGlobal = some .undefined := by
  unfold ClearFileAndDirectoryGlobals
  rw [getB_setB_ne _ _ _ _ (by decide), getB_setB_same]

theorem getB_clear_dir (g : GlobalObj) :
    getB (ClearFileAndDirectoryGlobals g) kDirNameGlobal = some .undefined := by
  unfold ClearFileAndDirectoryGlobals
  rw [getB_setB_same]

theorem getB_set_file (cwd : String) (g : GlobalObj) (path : String) :
    getB (SetFileAndDirectoryGlobals cwd g path) kFileNameGlobal
      = some (.str (systemComplete cwd path)) := by
  unfold SetFileAndDirectoryGlobals
  rw [getB_setB_ne _ _ _ _ (by decide), getB_setB_same]

theorem getB_set_dir (cwd : String) (g : GlobalObj) (path : String) :
    getB (SetFileAndDirectoryGlobals cwd g path) kDirNameGlobal
      = some (.str (parentPath (systemComplete cwd path))) := by
  unfold SetFileAndDirectoryGlobals
  rw [getB_setB_same]

/-- Claim C1: for every file executed through IncludeScript, the global
object handed to the script's run step carries the resolved absolute path
and parent directory in the identity globals, and immediately after the
execution — whether it completed or threw — both identity globals equal
the undefined absent marker on the global object IncludeScript returns. -/
theorem C1_identity_globals (env : Env) (cwd path : String) (g : GlobalObj)
    (file : ScriptFile) (hne : path ≠ "") (hread : env path = some file)
    (hc : file.compiles = true) :
    getB (SetFileAndDirectoryGlobals cwd g path) kFileNameGlobal
        = some (.str (systemComplete cwd path)) ∧
    getB (SetFileAndDirectoryGlobals cwd g path) kDirNameGlobal
        = some (.str (parentPath (systemComplete cwd path))) ∧
    (IncludeScript env cwd path g).g
        = ClearFileAndDirectoryGlobals
            (file.run (SetFileAndDirectoryGlobals cwd g path)).1 ∧
    getB (IncludeScript env cwd path g).g kFileNameGlobal = some .undefined ∧
    getB (IncludeScript env cwd path g).g kDirNameGlobal = some .undefined := by
  have hg : (IncludeScript env cwd path g).g
      = ClearFileAndDirectoryGlobals
          (file.run (SetFileAndDirectoryGlobals cwd g path)).1 := by
    unfold IncludeScript
    rw [if_neg hne, hread]
    simp only [hc, if_true]
    rcases h : (file.run (SetFileAndDirectoryGlobals cwd g path)).2 with e | v <;>
      simp [h]
  exact ⟨getB_set_file cwd g path, getB_set_dir cwd g path, hg,
    hg ▸ getB_clear_file _, hg ▸ getB_clear_dir _⟩

/-- Claim C1 witness: instantiation at the successfully executing file of
the concrete environment. -/
theorem C1_identity_globals_witness :
    getB (SetFileAndDirectoryGlobals "/w" [] "/a.js") kFileNameGlobal
        = some (.str (systemComplete "/w" "/a.js")) ∧
    getB (SetFileAndDirectoryGlobals "/w" [] "/a.js") kDirNameGlobal
        = some (.str (parentPath (systemComplete "/w" "/a.js"))) ∧
    (IncludeScript envA "/w" "/a.js" []).g
        = ClearFileAndDirectoryGlobals
            (fileA.run (SetFileAndDirectoryGlobals "/w" [] "/a.js")).1 ∧
    getB (IncludeScript envA "/w" "/a.js" []).g kFileNameGlobal = some .undefined ∧
    getB (IncludeScript envA "/w" "/a.js" []).g kDirNameGlobal = some .undefined :=
  C1_identity_globals envA "/w" "/a.js" [] fileA (by decide) rfl rfl

/-- Claim C7: when the engine fails to compile the script, IncludeScript
reports failed true, returns the undefined value as the result, raises no
error of its own, leaves the global object untouched (in particular writes
no identity global), and performs only the read and compile steps. -/
theorem C7_compile_failure (env : Env) (cwd path : String) (g : GlobalObj)
    (file : ScriptFile) (hne : path ≠ "") (hread : env path = some file)
    (hc : file.compiles = false) :
    (IncludeScript env cwd path g).failed = true ∧
    (IncludeScript env cwd path g).ret = some .undefined ∧
    (IncludeScript env cwd path g).thrown = none ∧
    (IncludeScript env cwd path g).g = g ∧
    (IncludeScript env cwd path g).events = [.read path, .compileStep path] := by
  unfold IncludeScript
  rw [if_neg hne, hread]
  simp [hc]

/-- Claim C7 witness: instantiation at the syntax-error file of the
concrete environment. -/
theorem C7_compile_failure_witness :
    (IncludeScript envA "/w" "/s.js" []).failed = true ∧
    (IncludeScript envA "/w" "/s.js" []).ret = some .undefined ∧
    (IncludeScript envA "/w" "/s.js" []).thrown = none ∧
    (IncludeScript envA "/w" "/s.js" []).g = [] ∧
    (IncludeScript envA "/w" "/s.js" []).events
      = [.read "/s.js", .compileStep "/s.js"] :=
  C7_compile_failure envA "/w" "/s.js" [] fileBadSyntax (by decide) rfl rfl

/-- Claim C9: IncludeScript on an unreadable file raises the I/O error,
reports failed true, and returns with the global object — in particular
both identity globals — exactly as it was before the call; its trace is
the single read attempt, so the read precedes any identity-global write. -/
theorem C9_missing_file (env : Env) (cwd path : String) (g : GlobalObj)
    (hne : path ≠ "") (hmiss : env path = none) :
    (IncludeScript env cwd path g).failed = true ∧
    (IncludeScript env cwd path g).thrown = some (ioErr path) ∧
    (IncludeScript env cwd path g).g = g ∧
    (IncludeScript env cwd path g).events = [.read path] := by
  unfold IncludeScript
  rw [if_neg hne, hmiss]
  simp

/-- Claim C9 witness: instantiation at a path the concrete environment
cannot read, starting from a global object with identity globals already
holding values, which the call leaves untouched. -/
theorem C9_missing_file_witness :
    (IncludeScript envA "/w" "/missing.js" [("__filename", .str "/old")]).failed = true ∧
    (IncludeScript envA "/w" "/missing.js" [("__filename", .str "/old")]).thrown
      = some (ioErr "/missing.js") ∧
    (IncludeScript envA "/w" "/missing.js" [("__filename", .str "/old")]).g
      = [("__filename", .str "/old")] ∧
    (IncludeScript envA "/w" "/missing.js" [("__filename", .str "/old")]).events
      = [.read "/missing.js"] :=
  C9_missing_file envA "/w" "/missing.js" [("__filename", .str "/old")]
    (by decide) rfl

/-- Claim C10: the boundary wrapper called with exactly one argument that
is not a string raises no arity error: it coerces the argument with the
engine's ToString and behaves exactly as IncludeScript on the coerced
path. -/
theorem C10_coercion (env : Env) (cwd : String) (v : Value) (g : GlobalObj)
    (_hv : v.isString = false) :
    IncludeScriptWrapper env cwd [v] g = IncludeScript env cwd (Value.toStr v) g := by
  unfold IncludeScriptWrapper
  simp

/-- Claim C10 witness: instantiation at the number 42, whose coerced path
is the string 42. -/
theorem C10_coercion_witness :
    Value.isString (.num 42) = false ∧
    Value.toStr (.num 42) = "42" ∧
    IncludeScriptWrapper envA "/w" [.num 42] []
      = IncludeScript envA "/w" (Value.toStr (.num 42)) [] :=
  ⟨rfl, rfl, C10_coercion envA "/w" (.num 42) [] rfl⟩

/-- Claim C4: a runtime exception thrown by the executed script makes
IncludeScript report failed true and propagates the thrown value unchanged
(the returned handle is empty); a normal completion gives failed false and
the completion value. Require never replaces or swallows that error: a
failing head file fixes the loop's raised error to the include's, and
Require's raised error is exactly its loop's. -/
theorem C4_exception_propagation (env : Env) (cwd path : String) (g : GlobalObj)
    (file : ScriptFile) (hne : path ≠ "") (hread : env path = some file)
    (hc : file.compiles = true) :
    (∀ e g2, file.run (SetFileAndDirectoryGlobals cwd g path) = (g2, .error e) →
        (IncludeScript env cwd path g).failed = true ∧
        (IncludeScript env cwd path g).thrown = some e ∧
        (IncludeScript env cwd path g).ret = none) ∧
    (∀ v g2, file.run (SetFileAndDirectoryGlobals cwd g path) = (g2, .ok v) →
        (IncludeScript env cwd path g).failed = false ∧
        (IncludeScript env cwd path g).ret = some v ∧
        (IncludeScript env cwd path g).thrown = none) ∧
    (∀ rest : List Value,
        (IncludeScript env cwd path (SetFileAndDirectoryGlobals cwd g path)).failed
            = true →
        (loopFiles env cwd (.str path :: rest) g).thrown
          = (IncludeScript env cwd path (SetFileAndDirectoryGlobals cwd g path)).thrown) ∧
    (∀ (nr ld : Value) (host : GlobalObj) (fps : List Value),
        (Require env cwd nr ld host fps).thrown
          = (loopFiles env cwd fps (seedGlobal nr ld host)).thrown) := by
  refine ⟨?_, ?_, ?_, ?_⟩
  · intro e g2 hrun
    unfold IncludeScript
    rw [if_neg hne, hread]
    simp [hc, hrun]
  · intro v g2 hrun
    unfold IncludeScript
    rw [if_neg hne, hread]
    simp [hc, hrun]
  · intro rest hfail
    simp [loopFiles, hfail]
  · intro nr ld host fps
    rcases h : (loopFiles env cwd fps (seedGlobal nr ld host)).exit <;>
      simp [Require, h]

/-- Claim C4 witness: instantiation at the throwing file of the concrete
environment; the thrown error object reaches the include result unchanged,
and Require's raised error equals its loop's on a concrete list. -/
theorem C4_exception_propagation_witness :
    ((IncludeScript envA "/w" "/t.js" []).failed = true ∧
     (IncludeScript envA "/w" "/t.js" []).thrown = some (.err "boom") ∧
     (IncludeScript envA "/w" "/t.js" []).ret = none) ∧
    (Require envA "/w" (.ext 9) (.ext 8) host0 [.str "/t.js"]).thrown
      = (loopFiles envA "/w" [.str "/t.js"]
          (seedGlobal (.ext 9) (.ext 8) host0)).thrown :=
  ⟨(C4_exception_propagation envA "/w" "/t.js" [] fileThrows (by decide) rfl
      rfl).1 (.err "boom") _ rfl,
   (C4_exception_propagation envA "/w" "/t.js" [] fileThrows (by decide) rfl
      rfl).2.2.2 (.ext 9) (.ext 8) host0 [.str "/t.js"]⟩

/-- Claim C8: the wrapper called with an argument count other than one
raises the arity error with an empty trace (no filesystem access) and an
unchanged global object; IncludeScript on the empty path reports failed
true, raises its descriptive error, and performs no step at all — in
particular no file read. -/
theorem C8_input_validation (env : Env) (cwd : String) (g : GlobalObj) :
    (∀ arguments : List Value, arguments.length ≠ 1 →
        (IncludeScriptWrapper env cwd arguments g).failed = true ∧
        (IncludeScriptWrapper env cwd arguments g).thrown = some (.err arityErrMsg) ∧
        (IncludeScriptWrapper env cwd arguments g).events = [] ∧
        (IncludeScriptWrapper env cwd arguments g).g = g) ∧
    ((IncludeScript env cwd "" g).failed = true ∧
     (IncludeScript env cwd "" g).thrown = some (.err includeArgErrMsg) ∧
     (IncludeScript env cwd "" g).events = [] ∧
     (IncludeScript env cwd "" g).g = g) := by
  constructor
  · intro arguments hlen
    unfold IncludeScriptWrapper
    simp [hlen]
  · unfold IncludeScript
    simp

/-- Claim C8 witness: instantiations at a zero-argument call, a
two-argument call, and the empty path. -/
theorem C8_input_validation_witness :
    ((IncludeScriptWrapper envA "/w" [] []).failed = true ∧
     (IncludeScriptWrapper envA "/w" [] []).thrown = some (.err arityErrMsg) ∧
     (IncludeScriptWrapper envA "/w" [] []).events = [] ∧
     (IncludeScriptWrapper envA "/w" [] []).g = []) ∧
    ((IncludeScriptWrapper envA "/w" [.str "/a.js", .str "/t.js"] []).events = []) ∧
    ((IncludeScript envA "/w" "" []).failed = true ∧
     (IncludeScript envA "/w" "" []).thrown = some (.err includeArgErrMsg) ∧
     (IncludeScript envA "/w" "" []).events = [] ∧
     (IncludeScript envA "/w" "" []).g = []) :=
  ⟨(C8_input_validation envA "/w" []).1 [] (by decide),
   ((C8_input_validation envA "/w" []).1 [.str "/a.js", .str "/t.js"]
      (by decide)).2.2.1,
   (C8_input_validation envA "/w" []).2⟩

/-- Claim C3: when the load of the first list element fails, the loop's
result does not depend on the remaining elements at all (so no later file
is read, compiled or run), its final global object is exactly the failed
include's resulting global object (earlier effects, carried in the
incoming global object, stand un-rolled-back), and its trace stops at the
failed file. Taking the incoming global object arbitrary places the
failing file at any index after an arbitrary successful prefix. -/
theorem C3_fail_fast (env : Env) (cwd p : String) (rest rest2 : List Value)
    (g : GlobalObj)
    (hfail : (IncludeScript env cwd p (SetFileAndDirectoryGlobals cwd g p)).failed
        = true) :
    loopFiles env cwd (.str p :: rest) g = loopFiles env cwd (.str p :: rest2) g ∧
    (loopFiles env cwd (.str p :: rest) g).g
      = (IncludeScript env cwd p (SetFileAndDirectoryGlobals cwd g p)).g ∧
    (loopFiles env cwd (.str p :: rest) g).events
      = .setIdent p
          :: (IncludeScript env cwd p (SetFileAndDirectoryGlobals cwd g p)).events := by
  refine ⟨?_, ?_, ?_⟩ <;> simp [loopFiles, hfail]

/-- Claim C3 witness: instantiation at an unreadable first file followed
by the good file, which the loop never reaches — the result equals the one
for the list with no tail at all. -/
theorem C3_fail_fast_witness :
    loopFiles envA "/w" [.str "/missing.js", .str "/a.js"] []
      = loopFiles envA "/w" [.str "/missing.js"] [] ∧
    (loopFiles envA "/w" [.str "/missing.js", .str "/a.js"] []).g
      = (IncludeScript envA "/w" "/missing.js"
          (SetFileAndDirectoryGlobals "/w" [] "/missing.js")).g ∧
    (loopFiles envA "/w" [.str "/missing.js", .str "/a.js"] []).events
      = .setIdent "/missing.js"
          :: (IncludeScript envA "/w" "/missing.js"
              (SetFileAndDirectoryGlobals "/w" [] "/missing.js")).events :=
  C3_fail_fast envA "/w" "/missing.js" [.str "/a.js"] [] [] (by decide)

/-- Claim C6: when the loop stopped because a load failed, Require still
returns the new context's global object — the cleared partial state the
executed files produced — and raises nothing beyond what the loop already
carried from the Script Loader. -/
theorem C6_partial_global (env : Env) (cwd : String) (nr ld : Value)
    (host : GlobalObj) (fps : List Value)
    (hf : (loopFiles env cwd fps (seedGlobal nr ld host)).exit = .loadFailed) :
    (Require env cwd nr ld host fps).ret = some (Require env cwd nr ld host fps).g ∧
    (Require env cwd nr ld host fps).g
      = ClearFileAndDirectoryGlobals
          (loopFiles env cwd fps (seedGlobal nr ld host)).g ∧
    (Require env cwd nr ld host fps).thrown
      = (loopFiles env cwd fps (seedGlobal nr ld host)).thrown := by
  refine ⟨?_, ?_, ?_⟩ <;> simp [Require, hf]

/-- Claim C6 witness: instantiation at a one-element list whose file is
unreadable, a loop termination by load failure. -/
theorem C6_partial_global_witness :
    (Require envA "/w" (.ext 9) (.ext 8) host0 [.str "/missing.js"]).ret
      = some (Require envA "/w" (.ext 9) (.ext 8) host0 [.str "/missing.js"]).g ∧
    (Require envA "/w" (.ext 9) (.ext 8) host0 [.str "/missing.js"]).g
      = ClearFileAndDirectoryGlobals
          (loopFiles envA "/w" [.str "/missing.js"]
            (seedGlobal (.ext 9) (.ext 8) host0)).g ∧
    (Require envA "/w" (.ext 9) (.ext 8) host0 [.str "/missing.js"]).thrown
      = (loopFiles envA "/w" [.str "/missing.js"]
          (seedGlobal (.ext 9) (.ext 8) host0)).thrown :=
  C6_partial_global envA "/w" (.ext 9) (.ext 8) host0 [.str "/missing.js"]
    (by decide)

/-- Claim C5 counterexample: a file list whose first element is a number
makes Require return on the non-string early path; its whole trace
contains zero identity-clear steps — not exactly one after the loop — and
the identity globals were never even written on the new global object. -/
theorem C5_counterexample :
    ((Require envA "/w" (.ext 9) (.ext 8) host0 [.num 1]).events.countP
        (fun e => decide (e = Ev.clearIdent))) = 0 ∧
    getB (Require envA "/w" (.ext 9) (.ext 8) host0 [.num 1]).g kFileNameGlobal
      = none := by
  decide

/-- Claim C5 as amended: when the loop ran over the whole list or stopped
because a load failed, Require performs the identity clear exactly once
after the loop and both identity globals equal the absent marker on the
returned global object; when the loop stopped because an element was not a
string, Require returns its raised error immediately and appends no clear
step after the loop. -/
theorem C5_clear_after_loop (env : Env) (cwd : String) (nr ld : Value)
    (host : GlobalObj) (fps : List Value) :
    ((loopFiles env cwd fps (seedGlobal nr ld host)).exit ≠ .nonString →
      (Require env cwd nr ld host fps).events
        = (loopFiles env cwd fps (seedGlobal nr ld host)).events ++ [.clearIdent] ∧
      getB (Require env cwd nr ld host fps).g kFileNameGlobal = some .undefined ∧
      getB (Require env cwd nr ld host fps).g kDirNameGlobal = some .undefined) ∧
    ((loopFiles env cwd fps (seedGlobal nr ld host)).exit = .nonString →
      (Require env cwd nr ld host fps).events
        = (loopFiles env cwd fps (seedGlobal nr ld host)).events ∧
      (Require env cwd nr ld host fps).ret = none) := by
  constructor
  · intro h
    rcases hx : (loopFiles env cwd fps (seedGlobal nr ld host)).exit with _ | _ | _
    · refine ⟨?_, ?_, ?_⟩ <;>
        simp [Require, hx, getB_clear_file, getB_clear_dir]
    · refine ⟨?_, ?_, ?_⟩ <;>
        simp [Require, hx, getB_clear_file, getB_clear_dir]
    · exact absurd hx h
  · intro hx
    constructor <;> simp [Require, hx]

/-- Claim C5 amended witness: the empty list terminates the loop normally,
so the clear runs once and both identity globals read as the absent
marker; a list headed by a number terminates it on the non-string path,
so no clear step follows the loop. -/
theorem C5_clear_after_loop_witness :
    ((Require envA "/w" (.ext 9) (.ext 8) host0 []).events
        = (loopFiles envA "/w" []
            (seedGlobal (.ext 9) (.ext 8) host0)).events ++ [.clearIdent] ∧
      getB (Require envA "/w" (.ext 9) (.ext 8) host0 []).g kFileNameGlobal
        = some .undefined ∧
      getB (Require envA "/w" (.ext 9) (.ext 8) host0 []).g kDirNameGlobal
        = some .undefined) ∧
    ((Require envA "/w" (.ext 9) (.ext 8) host0 [.num 1]).events
        = (loopFiles envA "/w" [.num 1]
            (seedGlobal (.ext 9) (.ext 8) host0)).events ∧
      (Require envA "/w" (.ext 9) (.ext 8) host0 [.num 1]).ret = none) :=
  ⟨(C5_clear_after_loop envA "/w" (.ext 9) (.ext 8) host0 []).1 (by decide),
   (C5_clear_after_loop envA "/w" (.ext 9) (.ext 8) host0 [.num 1]).2 (by decide)⟩

/-- Claim C2 counterexample: on the empty file list with a concrete host
global object, the returned global object is the explicit thirteen-binding
table below, in which exactly one binding — not two — holds the new
context's own global object, five bindings — not four — are copied from
the host (console plus the four timer names), and the two identity
globals additionally appear, holding the absent marker written by the
final clear. -/
theorem C2_counterexample :
    (Require envA "/w" (.ext 9) (.ext 8) host0 []).g
      = [("exports", .exportsRef), ("global", .newGlobalRef),
         ("globals", .hostGlobalRef), ("root", .hostGlobalRef),
         ("MojoLoader", .ext 8), ("require", .ext 9),
         ("console", .ext 0), ("setTimeout", .ext 1), ("clearTimeout", .ext 2),
         ("setInterval", .ext 3), ("clearInterval", .ext 4),
         ("__filename", .undefined), ("__dirname", .undefined)] ∧
    ((Require envA "/w" (.ext 9) (.ext 8) host0 []).g.countP
        (fun kv => decide (kv.2 = Value.newGlobalRef))) = 1 := by
  decide

/-- Claim C2 as amended: Require on the empty file list returns a global
object holding exactly these bindings and no others: the fresh exports
namespace, the new context's own global object under the single alias
global, the host global object under the two aliases globals and root, the
loader handle under MojoLoader, the nativeRequire value under require,
the five bindings console, setTimeout, clearTimeout, setInterval and
clearInterval copied by value from the host global object, and the two
identity globals holding the absent marker written by the final clear. -/
theorem C2_seeded_bindings (env : Env) (cwd : String) (nr ld : Value)
    (host : GlobalObj) :
    (Require env cwd nr ld host []).g
      = [("exports", .exportsRef), ("global", .newGlobalRef),
         ("globals", .hostGlobalRef), ("root", .hostGlobalRef),
         ("MojoLoader", ld), ("require", nr),
         ("console", getD host "console"), ("setTimeout", getD host "setTimeout"),
         ("clearTimeout", getD host "clearTimeout"),
         ("setInterval", getD host "setInterval"),
         ("clearInterval", getD host "clearInterval"),
         (kFileNameGlobal, .undefined), (kDirNameGlobal, .undefined)] := by
  rfl

end WebosDynaload
